import Mathlib

/-!
Verification development for the community.general StatsD integration:
the callback plugin `plugins/callback/statsd.py` (event dispatcher, timing
tracker, metric composition, end-of-run stats flattening, check-mode gated
sends) and the task module `plugins/modules/monitoring/statsd.py` (one-shot
submission entry point).

The Python code is shallowly embedded: timestamps are rationals (seconds),
Python dicts keyed by strings become association lists, the network is an
oracle `String → Bool` (`true` = the bytes went out, `false` = the socket
call raised), Python float formatting is an explicit rendering parameter
`showF : ℚ → String`, and a raised exception is an `Option String` error
component threaded through each handler.
-/

/-! ## String processing from `v2_playbook_on_start`

`playbook._basedir.replace(".", "_")` and
`basename(playbook._file_name).split(".")[0]`.
We embed Python's `str.replace` and `str.split` on character lists,
specialised only where the source specialises them.
-/

/-- Worker for Python `str.replace` on character lists.  The `skip` counter
consumes the remaining characters of a pattern occurrence that has just been
matched and replaced (so a match of length `n` contributes its replacement
once and the matched characters are dropped). -/
def replaceGo (pat rep : List Char) : List Char → Nat → List Char
  | [], _ => []
  | _ :: cs, Nat.succ k => replaceGo pat rep cs k
  | c :: cs, 0 =>
    if pat.isPrefixOf (c :: cs) && !pat.isEmpty then
      rep ++ replaceGo pat rep cs (pat.length - 1)
    else
      c :: replaceGo pat rep cs 0

/-- Python `s.replace(pat, rep)` for a non-empty pattern: replace every
(left-to-right, non-overlapping) occurrence of `pat` in `s` by `rep`. -/
def pyReplaceChars (pat rep l : List Char) : List Char :=
  replaceGo pat rep l 0

/-- `self.statsd.ansible_basedir = playbook._basedir.replace(".", "_")`
(statsd.py line 189): the basedir with every `.` replaced by `_`. -/
def sanitizeBasedir (s : String) : String :=
  ⟨pyReplaceChars ['.'] ['_'] s.data⟩

/-- Python `str.split(sep)` for a single-character separator, on character
lists: `splitOnCharList sep l` always returns a non-empty list of chunks,
`[""]`-like on the empty input, matching CPython's `"".split(".") == [""]`. -/
def splitOnCharList (sep : Char) : List Char → List (List Char)
  | [] => [[]]
  | c :: cs =>
    if c = sep then
      [] :: splitOnCharList sep cs
    else
      match splitOnCharList sep cs with
      | [] => [[c]]
      | p :: ps => (c :: p) :: ps

/-- POSIX `os.path.basename`: everything after the last `/`. -/
def pyBasename (s : String) : String :=
  ⟨(splitOnCharList '/' s.data).getLastD []⟩

/-- `basename(playbook._file_name).split(".")[0]` (statsd.py line 190):
the playbook metric segment. -/
def playbookSegment (s : String) : String :=
  ⟨(splitOnCharList '.' (pyBasename s).data).headD []⟩

/-! ## Metric line composition

The f-strings of `v2_runner_on_ok` / `_skipped` / `_failed` /
`_async_failed` / `_unreachable` (statsd.py lines 226-227 and the four
analogous pairs) and the `str.format` calls of `v2_playbook_on_stats`
(lines 333-343). -/

/-- Task outcome kinds: the five `v2_runner_on_*` callback events. -/
inductive Outcome
  | ok
  | skipped
  | failed
  | async_failed
  | unreachable
  deriving DecidableEq, Repr

def outcomeStr : Outcome → String
  | .ok => "ok"
  | .skipped => "skipped"
  | .failed => "failed"
  | .async_failed => "async_failed"
  | .unreachable => "unreachable"

/-- Counter line of a host-outcome event:
`ansible.counter.{basedir}.{playbook}.{play}.{task}.{host}.{outcome}:1|c`. -/
def taskCounterLine (basedir playbook play task host outcome : String) : String :=
  "ansible.counter." ++ basedir ++ "." ++ playbook ++ "." ++ play ++ "." ++ task
    ++ "." ++ host ++ "." ++ outcome ++ ":1|c"

/-- Gauge line of a host-outcome event:
`ansible.gauge.{basedir}.{playbook}.{play}.{task}.{host}.{outcome}:{runtime}|g`. -/
def taskGaugeLine (basedir playbook play task host outcome runtimeStr : String) : String :=
  "ansible.gauge." ++ basedir ++ "." ++ playbook ++ "." ++ play ++ "." ++ task
    ++ "." ++ host ++ "." ++ outcome ++ ":" ++ runtimeStr ++ "|g"

/-- Stats counter line (statsd.py lines 333-338):
`ansible.counter.stats.{basedir}.{playbook}.{k1}.{k2}:1|c`. -/
def statsCounter (basedir playbook k1 k2 : String) : String :=
  "ansible.counter.stats." ++ basedir ++ "." ++ playbook ++ "." ++ k1 ++ "." ++ k2 ++ ":1|c"

/-- Stats gauge line (statsd.py lines 339-343):
`ansible.gauge.stats.{basedir}.{playbook}:{runtime}|g`. -/
def statsGauge (basedir playbook runtimeStr : String) : String :=
  "ansible.gauge.stats." ++ basedir ++ "." ++ playbook ++ ":" ++ runtimeStr ++ "|g"

/-- The metric lines built by the nested loop of `v2_playbook_on_stats`
(lines 329-343), in emission order: `s = dict(stats.__dict__)` is an
association list of attribute name to inner host-count mapping; for each
attribute whose mapping is non-empty (`if len(s[k1]):`), for each inner key,
one counter line then one gauge line. -/
def statsLines (basedir playbook runtimeStr : String)
    (attrs : List (String × List (String × Nat))) : List String :=
  attrs.flatMap (fun a =>
    if a.2.length ≠ 0 then
      a.2.flatMap (fun b => [statsCounter basedir playbook a.1 b.1,
                             statsGauge basedir playbook runtimeStr])
    else [])

/-- The `(category, host)` pairs that drive the stats loop: one per inner key
of each attribute with a non-empty inner mapping. -/
def statsPairs (attrs : List (String × List (String × Nat))) : List (String × String) :=
  attrs.flatMap (fun a =>
    if a.2.length ≠ 0 then a.2.map (fun b => (a.1, b.1)) else [])

/-! ## The `StatsD` client object and the callback state

`class StatsD` (statsd.py lines 111-130) and the mutable state of
`CallbackModule` (`start_datetimes`, lines 139-144).  The constructor sets
`ansible_check_mode = True`, `ansible_basedir = ""`, `ansible_playbook = ""`;
`ansible_play` and `ansible_task` are only created by later assignments, so
they are `Option String` here and reading them before assignment is the
source's `AttributeError`.  `start_datetimes["playbook"]` starts as the empty
dict `{}` (not a datetime), modelled as `none`; `start_datetimes["task"]` is
a dict keyed by task uuid, modelled as an association list whose most recent
assignment is consed at the front. -/

structure StatsDState where
  ansible_check_mode : Bool
  ansible_basedir : String
  ansible_playbook : String
  ansible_play : Option String
  ansible_task : Option String
  deriving DecidableEq, Repr

/-- `StatsD.send_metric` (lines 125-130): when not in check mode, open a TCP
socket and send the metric; any socket failure raises (there is no
`try`/`except` in the source).  The network oracle `net` answers `true` when
the bytes go out and `false` when the socket call raises.  Result: the list
of metrics actually transmitted by this call, and the exception if one was
raised. -/
def send_metric (net : String → Bool) (sd : StatsDState) (metric : String) :
    List String × Option String :=
  if !sd.ansible_check_mode then
    if net metric then ([metric], none) else ([], some "TransportError")
  else ([], none)

/-- Sequential transmission of a list of metric lines through `send_metric`,
stopping at the first raised exception (as straight-line Python code would). -/
def sendAll (net : String → Bool) (sd : StatsDState) : List String → List String × Option String
  | [] => ([], none)
  | m :: ms =>
    match send_metric net sd m with
    | (sent, some e) => (sent, some e)
    | (sent, none) =>
      let r := sendAll net sd ms
      (sent ++ r.1, r.2)

/-- State of `CallbackModule`: the `start_datetimes` dict plus the `StatsD`
object it drives. -/
structure CBState where
  start_playbook : Option ℚ
  start_play : Option ℚ
  start_task : List (String × ℚ)
  statsd : StatsDState
  deriving DecidableEq, Repr

/-- Initial `StatsD` object (constructor, lines 112-123). -/
def initStatsD : StatsDState :=
  { ansible_check_mode := true
    ansible_basedir := ""
    ansible_playbook := ""
    ansible_play := none
    ansible_task := none }

/-- Initial `CallbackModule` state (constructor, lines 139-144). -/
def initCB : CBState :=
  { start_playbook := none
    start_play := none
    start_task := []
    statsd := initStatsD }

/-- Argument of `CallbackModule._runtime`: an `AggregateStats` (end-of-run)
or a `TaskResult` carrying its task's uuid. -/
inductive RuntimeArg
  | aggregateStats
  | taskResult (uuid : String)

/-- `CallbackModule._runtime` (lines 176-184): elapsed seconds since the
recorded start.  For `AggregateStats`, subtracting from the initial `{}`
raises (`TypeError`); for a `TaskResult` whose uuid was never started, the
dict lookup raises `KeyError`. -/
def runtimeOf (st : CBState) (now : ℚ) : RuntimeArg → Except String ℚ
  | .aggregateStats =>
    match st.start_playbook with
    | some t0 => .ok (now - t0)
    | none => .error "TypeError: playbook start not recorded"
  | .taskResult uuid =>
    match st.start_task.lookup uuid with
    | some t0 => .ok (now - t0)
    | none => .error ("KeyError: " ++ uuid)

/-- The five `v2_runner_on_*` handlers (lines 222-310), which differ only in
the outcome segment: set `ansible_check_mode` from
`result._task_fields.get("check_mode", True)`; compute the runtime (may
raise `KeyError`); build the counter and gauge lines (reading
`ansible_play` / `ansible_task` raises `AttributeError` if unassigned); send
the counter, then the gauge.  `showF` renders the Python float runtime into
the f-string.  Result: state after the call (assignments persist even when
an exception is raised later in the handler), transmitted metrics, raised
exception if any. -/
def v2_runner_on (net : String → Bool) (showF : ℚ → String) (kind : Outcome)
    (uuid host : String) (checkModeField : Option Bool) (now : ℚ)
    (st : CBState) : CBState × List String × Option String :=
  let sd := { st.statsd with ansible_check_mode := checkModeField.getD true }
  let st1 := { st with statsd := sd }
  match runtimeOf st1 now (.taskResult uuid) with
  | .error e => (st1, [], some e)
  | .ok runtime =>
    match sd.ansible_play, sd.ansible_task with
    | some play, some task =>
      let counter := taskCounterLine sd.ansible_basedir sd.ansible_playbook play task
        host (outcomeStr kind)
      let gauge := taskGaugeLine sd.ansible_basedir sd.ansible_playbook play task
        host (outcomeStr kind) (showF runtime)
      match send_metric net sd counter with
      | (s1, some e) => (st1, s1, some e)
      | (s1, none) =>
        let r := send_metric net sd gauge
        (st1, s1 ++ r.1, r.2)
    | _, _ => (st1, [], some "AttributeError")

/-- `v2_playbook_on_stats` (lines 312-356): compute the playbook runtime
(may raise `TypeError`), then walk `dict(stats.__dict__)` sending one
counter and one gauge per inner key of each non-empty attribute.  The source
builds and sends each line inside the loop; this is factored as `statsLines`
followed by sequential `sendAll`, which transmits the same prefix and raises
the same first exception. -/
def v2_playbook_on_stats (net : String → Bool) (showF : ℚ → String)
    (attrs : List (String × List (String × Nat))) (now : ℚ)
    (st : CBState) : CBState × List String × Option String :=
  match runtimeOf st now .aggregateStats with
  | .error e => (st, [], some e)
  | .ok runtime =>
    let lines := statsLines st.statsd.ansible_basedir st.statsd.ansible_playbook
      (showF runtime) attrs
    let r := sendAll net st.statsd lines
    (st, r.1, r.2)

/-- The lifecycle events delivered by the engine, with their timestamp
(`datetime.utcnow()` at the moment the handler runs). -/
inductive Event
  | playbookStart (basedir fileName : String) (t : ℚ)
  | playStart (playRepr : String) (t : ℚ)
  | taskStart (taskName uuid : String) (t : ℚ)
  | handlerTaskStart (taskName uuid : String) (t : ℚ)
  | hostOutcome (kind : Outcome) (uuid host : String) (checkModeField : Option Bool) (t : ℚ)
  | playbookStats (attrs : List (String × List (String × Nat))) (t : ℚ)
  deriving DecidableEq, Repr

/-- One step of the `CallbackModule` dispatcher:
`v2_playbook_on_start` (lines 186-191) records the playbook start and sets
`ansible_basedir` / `ansible_playbook` (the captured `get_plays()` list is
never read and is omitted); `v2_playbook_on_play_start` (200-205) records
the play start and sets `ansible_play`; `v2_playbook_on_task_start`
(207-213) records the task start keyed by uuid and sets `ansible_task`;
`v2_playbook_on_handler_task_start` (215-220) records the start only;
host outcomes and stats dispatch to their handlers. -/
def handleEvent (net : String → Bool) (showF : ℚ → String) :
    Event → CBState → CBState × List String × Option String
  | .playbookStart basedir fileName t, st =>
    ({ st with
        start_playbook := some t
        statsd := { st.statsd with
          ansible_basedir := sanitizeBasedir basedir
          ansible_playbook := playbookSegment fileName } }, [], none)
  | .playStart playRepr t, st =>
    ({ st with
        start_play := some t
        statsd := { st.statsd with ansible_play := some playRepr } }, [], none)
  | .taskStart taskName uuid t, st =>
    ({ st with
        start_task := (uuid, t) :: st.start_task
        statsd := { st.statsd with ansible_task := some taskName } }, [], none)
  | .handlerTaskStart _ uuid t, st =>
    ({ st with start_task := (uuid, t) :: st.start_task }, [], none)
  | .hostOutcome kind uuid host cm t, st => v2_runner_on net showF kind uuid host cm t st
  | .playbookStats attrs t, st => v2_playbook_on_stats net showF attrs t st

/-- Run a sequence of lifecycle events from a state, accumulating the
transmitted metrics.  An exception raised by a handler propagates out of the
plugin uncaught, ending its processing (the handler's state mutations and
already-transmitted metrics survive). -/
def runEvents (net : String → Bool) (showF : ℚ → String) :
    List Event → CBState → CBState × List String
  | [], st => (st, [])
  | e :: es, st =>
    match handleEvent net showF e st with
    | (st1, sent, some _) => (st1, sent)
    | (st1, sent, none) =>
      let r := runEvents net showF es st1
      (r.1, sent ++ r.2)

/-- Does this event carry an explicit `check_mode = False` in its result's
task fields? -/
def explicitFalseCM : Event → Bool
  | .hostOutcome _ _ _ (some false) _ => true
  | _ => false

/-- Does this event record a task start timestamp for `uuid`? -/
def startsTaskUuid (uuid : String) : Event → Bool
  | .taskStart _ u _ => u == uuid
  | .handlerTaskStart _ u _ => u == uuid
  | _ => false

/-! ## The one-shot task module

`plugins/modules/monitoring/statsd.py`, `main` (lines 103-150).  The
argument spec restricts `protocol` to `udp`/`tcp` and `metric_type` to
`counter`/`gauge`, so those are enums here.  The statsd library client is an
external effect: `eff` answers `.ok ()` when a constructor or send call
returns and `.error e` when it raises, `e` standing for `to_native(exc)`. -/

inductive Protocol
  | udp
  | tcp
  deriving DecidableEq, Repr

inductive MetricType
  | counter
  | gauge
  deriving DecidableEq, Repr

/-- The module parameters after `AnsibleModule` argument parsing
(`metricPref` models the `metric_prefix` option). -/
structure OneShotParams where
  host : String
  port : Int
  protocol : Protocol
  timeout : ℚ
  metric : String
  metric_type : MetricType
  metricPref : String
  value : Int
  delta : Bool
  deriving Repr

/-- Calls made against the statsd library client. -/
inductive ClientOp
  | mkUdp (host : String) (port : Int) (pre : String) (maxudpsize : Int) (ipv6 : Bool)
  | mkTcp (host : String) (port : Int) (timeout : ℚ) (pre : String) (ipv6 : Bool)
  | incr (metric : String) (value : Int)
  | gaugeSend (metric : String) (value : Int) (delta : Bool)
  deriving DecidableEq, Repr

/-- Is this client call a metric send (as opposed to client construction)? -/
def ClientOp.isSend : ClientOp → Bool
  | .incr _ _ => true
  | .gaugeSend _ _ _ => true
  | _ => false

/-- What the module reports to its caller: `exit_json` (success) or
`fail_json` with the `error=...` message. -/
structure ModuleResult where
  failed : Bool
  msg : Option String
  deriving DecidableEq, Repr

/-- The client-construction call of `main` (lines 134-139): `StatsClient`
for udp with `maxudpsize=512`, `TCPStatsClient` for tcp with the timeout. -/
def clientCtor (p : OneShotParams) : ClientOp :=
  match p.protocol with
  | .udp => .mkUdp p.host p.port p.metricPref 512 false
  | .tcp => .mkTcp p.host p.port p.timeout p.metricPref false

/-- The single metric send of `main` (lines 141-144): `statsd.incr` for a
counter, `statsd.gauge` (with `delta`) for a gauge. -/
def clientSend (p : OneShotParams) : ClientOp :=
  match p.metric_type with
  | .counter => .incr p.metric p.value
  | .gauge => .gaugeSend p.metric p.value p.delta

/-- `module.fail_json(error='Failed to sending to StatsD %s' % to_native(exc), ...)`
(lines 146-148). -/
def failResult (e : String) : ModuleResult :=
  { failed := true, msg := some ("Failed to sending to StatsD " ++ e) }

/-- `main` (lines 103-150): construct the client, perform the one send, and
report — the whole client interaction sits in one `try`, whose `except`
reports the failure with its cause via `fail_json`; otherwise `exit_json`.
Also returns the client calls that completed without raising. -/
def moduleMain (p : OneShotParams) (eff : ClientOp → Except String Unit) :
    ModuleResult × List ClientOp :=
  match eff (clientCtor p) with
  | .error e => (failResult e, [])
  | .ok _ =>
    match eff (clientSend p) with
    | .error e => (failResult e, [clientCtor p])
    | .ok _ => ({ failed := false, msg := none }, [clientCtor p, clientSend p])

/-- The event sequence of the spec's end-to-end example: playbook start with
basedir `/plays` and file `deploy.yml`, play `web`, task `install pkg`
(uuid `u1`), then an `ok` outcome for host `node1` 2.5 seconds after the
task start, with `check_mode = False` in the result's task fields. -/
def c1Events : List Event :=
  [.playbookStart "/plays" "deploy.yml" 0,
   .playStart "web" 0,
   .taskStart "install pkg" "u1" 0,
   .hostOutcome .ok "u1" "node1" (some false) (5 / 2)]

/-- A full run — playbook, play, task, an `ok` host outcome whose result
lacks the `check_mode` field, and final stats — with a live network. -/
def c9Events : List Event :=
  [.playbookStart "/plays" "deploy.yml" 0,
   .playStart "web" 0,
   .taskStart "t" "u1" 0,
   .hostOutcome .ok "u1" "h" none 1,
   .playbookStats [("ok", [("h", 1)])] 2]

/-! ### Lemmas about the string processing -/

theorem replaceGo_dot (l : List Char) :
    replaceGo ['.'] ['_'] l 0 = l.map (fun c => if c = '.' then '_' else c) := by
  induction l with
  | nil => simp [replaceGo]
  | cons c cs ih =>
    by_cases h : c = '.'
    · subst h
      simp [replaceGo, List.isPrefixOf, ih]
    · have hb : (('.' == c) : Bool) = false := by
        simp [beq_iff_eq]
        exact fun hc => h hc.symm
      simp [replaceGo, List.isPrefixOf, hb, h, ih]

theorem splitOnCharList_ne_nil (sep : Char) (l : List Char) :
    splitOnCharList sep l ≠ [] := by
  cases l with
  | nil => simp [splitOnCharList]
  | cons c cs =>
    simp only [splitOnCharList]
    split
    · simp
    · split <;> simp

theorem splitOnCharList_headD (sep : Char) (l : List Char) :
    (splitOnCharList sep l).headD [] = l.takeWhile (fun c => c != sep) := by
  induction l with
  | nil => simp [splitOnCharList]
  | cons c cs ih =>
    by_cases h : c = sep
    · subst h
      simp [splitOnCharList, List.takeWhile]
    · obtain ⟨p, ps, hps⟩ := List.exists_cons_of_ne_nil (splitOnCharList_ne_nil sep cs)
      have hp : p = cs.takeWhile (fun x => x != sep) := by
        rw [← ih, hps]
        rfl
      have hbne : ((c != sep) : Bool) = true := by
        simp [bne_iff_ne]
        exact h
      simp only [splitOnCharList, h, if_false, hps, List.takeWhile, hbne]
      simp [hp]

theorem flatMap_map_eq {α β γ : Type} (f : α → β) (F : β → List γ) (l : List α) :
    (l.map f).flatMap F = l.flatMap (fun x => F (f x)) := by
  induction l with
  | nil => rfl
  | cons a as ih => simp [List.map, List.flatMap_cons, ih]

theorem statsLines_eq_pairs (b p r : String) (attrs : List (String × List (String × Nat))) :
    statsLines b p r attrs =
      (statsPairs attrs).flatMap (fun pr => [statsCounter b p pr.1 pr.2, statsGauge b p r]) := by
  induction attrs with
  | nil => rfl
  | cons a as ih =>
    by_cases h : a.2.length = 0
    · simp only [statsLines, statsPairs, List.flatMap_cons, h, ne_eq, not_true_eq_false,
        if_false, List.nil_append] at ih ⊢
      exact ih
    · simp only [statsLines, statsPairs, List.flatMap_cons, if_pos h,
        List.flatMap_append] at ih ⊢
      rw [flatMap_map_eq]
      exact congrArg _ ih

/-! ## Claim theorems -/

/-- C6: every `.` in the basedir captured at playbook start is replaced with
`_` before interpolation into metric names, and no other character is
altered: `sanitizeBasedir` is exactly the character map sending `.` to `_`,
and `/opt/foo.bar/plays` becomes `/opt/foo_bar/plays`. -/
theorem basedir_dot_substitution :
    (∀ s : String,
        (sanitizeBasedir s).data = s.data.map (fun c => if c = '.' then '_' else c)) ∧
    sanitizeBasedir "/opt/foo.bar/plays" = "/opt/foo_bar/plays" := by
  constructor
  · intro s
    exact replaceGo_dot s.data
  · have h := replaceGo_dot "/opt/foo.bar/plays".data
    unfold sanitizeBasedir pyReplaceChars
    rw [h]
    decide

/-- C7: the playbook metric segment is the file's base name truncated at the
first `.` (the characters of the base name up to the first dot), and
`site.retry.yml` composes to `site`. -/
theorem playbook_first_dot_truncation :
    (∀ f : String,
        playbookSegment f = ⟨(pyBasename f).data.takeWhile (fun c => c != '.')⟩) ∧
    playbookSegment "site.retry.yml" = "site" := by
  constructor
  · intro f
    unfold playbookSegment
    rw [splitOnCharList_headD]
  · decide

/-- C5: end-of-run flattening emits, in loop order, exactly one counter
`ansible.counter.stats.{basedir}.{playbook}.{category}.{host}:1|c` and one
gauge `ansible.gauge.stats.{basedir}.{playbook}:{runtime}|g` per
`(category, host)` pair whose category's inner mapping is non-empty (and
nothing for empty categories); the gauge name and value are the same in
every emission.  In particular `{ok: {hostA: 3, hostB: 1}, failures: {}}`
yields exactly two counter+gauge pairs. -/
theorem stats_flatten_exact (b p r : String) :
    (∀ attrs, statsLines b p r attrs =
        (statsPairs attrs).flatMap
          (fun pr => [statsCounter b p pr.1 pr.2, statsGauge b p r])) ∧
    statsLines b p r [("ok", [("hostA", 3), ("hostB", 1)]), ("failures", [])] =
      [statsCounter b p "ok" "hostA", statsGauge b p r,
       statsCounter b p "ok" "hostB", statsGauge b p r] :=
  ⟨statsLines_eq_pairs b p r, rfl⟩

/-- C10: the stats loop ranges over every attribute of the stats object's
attribute dictionary, not a fixed closed set of outcome categories: any
attribute name whose inner mapping is non-empty contributes a counter per
inner key — shown for an arbitrary category string, and concretely for
`changed`, `processed` and `custom`. -/
theorem stats_flatten_all_attributes :
    (∀ (b p r k1 k2 : String) (v : Nat) (inner : List (String × Nat))
        (attrs : List (String × List (String × Nat))),
        (k1, inner) ∈ attrs → (k2, v) ∈ inner →
        statsCounter b p k1 k2 ∈ statsLines b p r attrs) ∧
    statsLines "bd" "pb" "9.0"
        [("changed", [("h1", 2)]), ("processed", [("h1", 5)]), ("custom", [("h1", 1)])] =
      [statsCounter "bd" "pb" "changed" "h1", statsGauge "bd" "pb" "9.0",
       statsCounter "bd" "pb" "processed" "h1", statsGauge "bd" "pb" "9.0",
       statsCounter "bd" "pb" "custom" "h1", statsGauge "bd" "pb" "9.0"] := by
  constructor
  · intro b p r k1 k2 v inner attrs hin hmem
    unfold statsLines
    rw [List.mem_flatMap]
    refine ⟨(k1, inner), hin, ?_⟩
    have hne : inner.length ≠ 0 := by
      intro h0
      rw [List.length_eq_zero] at h0
      subst h0
      exact absurd hmem (List.not_mem_nil _)
    rw [if_pos hne, List.mem_flatMap]
    exact ⟨(k2, v), hmem, by simp⟩
  · rfl

/-- Witness for C10 at a concrete non-standard category. -/
theorem stats_flatten_all_attributes_witness :
    statsCounter "bd" "pb" "custom" "h9" ∈
      statsLines "bd" "pb" "1.5" [("custom", [("h9", 4)])] :=
  stats_flatten_all_attributes.1 "bd" "pb" "1.5" "custom" "h9" 4 [("h9", 4)]
    [("custom", [("h9", 4)])] (by simp) (by simp)

theorem send_metric_check_mode (net : String → Bool) (sd : StatsDState) (m : String)
    (h : sd.ansible_check_mode = true) : send_metric net sd m = ([], none) := by
  simp [send_metric, h]

theorem sendAll_check_mode (net : String → Bool) (sd : StatsDState)
    (h : sd.ansible_check_mode = true) :
    ∀ ms : List String, sendAll net sd ms = ([], none) := by
  intro ms
  induction ms with
  | nil => rfl
  | cons m ms ih => simp [sendAll, send_metric_check_mode net sd m h, ih]

/-- C3: whenever the check-mode flag is true, `send_metric` is a no-op (no
metric is transmitted, no exception raised, whatever the network does); a
host-outcome event whose result does not carry an explicit
`check_mode = False` transmits nothing and otherwise proceeds normally (its
only state effect, recording the flag, still happens); and end-of-run stats
handling transmits nothing while the flag is true. -/
theorem check_mode_suppresses_send :
    (∀ (net : String → Bool) (sd : StatsDState) (m : String),
        sd.ansible_check_mode = true → send_metric net sd m = ([], none)) ∧
    (∀ (net : String → Bool) (showF : ℚ → String) (kind : Outcome) (uuid host : String)
        (cm : Option Bool) (now : ℚ) (st : CBState),
        cm.getD true = true →
        (v2_runner_on net showF kind uuid host cm now st).2.1 = [] ∧
        (v2_runner_on net showF kind uuid host cm now st).1 =
          { st with statsd := { st.statsd with ansible_check_mode := true } }) ∧
    (∀ (net : String → Bool) (showF : ℚ → String)
        (attrs : List (String × List (String × Nat))) (now : ℚ) (st : CBState),
        st.statsd.ansible_check_mode = true →
        (v2_playbook_on_stats net showF attrs now st).2.1 = []) := by
  refine ⟨send_metric_check_mode, ?_, ?_⟩
  · intro net showF kind uuid host cm now st hcm
    simp only [v2_runner_on, hcm]
    split
    · exact ⟨rfl, rfl⟩
    · split
      · exact ⟨rfl, rfl⟩
      · exact ⟨rfl, rfl⟩
  · intro net showF attrs now st hcm
    simp only [v2_playbook_on_stats]
    split
    · rfl
    · simp [sendAll_check_mode net st.statsd hcm]

/-- Witness for C3: a run-end stats event with a populated stats structure
and a live network, handled with the flag still at its initial true,
transmits nothing. -/
theorem check_mode_suppresses_send_witness :
    ((some true : Option Bool).getD true = true) ∧
    (v2_playbook_on_stats (fun _ => true) (fun _ => "1") [("ok", [("h", 1)])] 5
      { initCB with start_playbook := some 0 }).2.1 = [] :=
  ⟨rfl, check_mode_suppresses_send.2.2 (fun _ => true) (fun _ => "1")
    [("ok", [("h", 1)])] 5 { initCB with start_playbook := some 0 } rfl⟩

theorem v2_runner_on_start_task (net : String → Bool) (showF : ℚ → String) (kind : Outcome)
    (uuid host : String) (cm : Option Bool) (now : ℚ) (st : CBState) :
    ((v2_runner_on net showF kind uuid host cm now st).1).start_task = st.start_task := by
  simp only [v2_runner_on]
  split
  · rfl
  · split
    · split <;> rfl
    · rfl

theorem v2_playbook_on_stats_state (net : String → Bool) (showF : ℚ → String)
    (attrs : List (String × List (String × Nat))) (now : ℚ) (st : CBState) :
    (v2_playbook_on_stats net showF attrs now st).1 = st := by
  simp only [v2_playbook_on_stats]
  split <;> rfl

theorem runtimeOf_lookup_none (st : CBState) (now : ℚ) (uuid : String)
    (h : st.start_task.lookup uuid = none) :
    runtimeOf st now (.taskResult uuid) = .error ("KeyError: " ++ uuid) := by
  simp [runtimeOf, h]

theorem handleEvent_start_task_none (net : String → Bool) (showF : ℚ → String)
    (uuid : String) (e : Event) (st : CBState)
    (h0 : st.start_task.lookup uuid = none) (he : startsTaskUuid uuid e = false) :
    ((handleEvent net showF e st).1).start_task.lookup uuid = none := by
  cases e with
  | playbookStart b f t =>
    simp only [handleEvent]
    exact h0
  | playStart p t =>
    simp only [handleEvent]
    exact h0
  | taskStart n u t =>
    simp only [startsTaskUuid, beq_eq_false_iff_ne, ne_eq] at he
    simp only [handleEvent, List.lookup]
    have : (uuid == u) = false := by
      simp [beq_eq_false_iff_ne]
      exact fun hh => he hh.symm
    rw [this]
    exact h0
  | handlerTaskStart n u t =>
    simp only [startsTaskUuid, beq_eq_false_iff_ne, ne_eq] at he
    simp only [handleEvent, List.lookup]
    have : (uuid == u) = false := by
      simp [beq_eq_false_iff_ne]
      exact fun hh => he hh.symm
    rw [this]
    exact h0
  | hostOutcome kind u host cm t =>
    simp only [handleEvent]
    rw [v2_runner_on_start_task]
    exact h0
  | playbookStats attrs t =>
    simp only [handleEvent]
    rw [v2_playbook_on_stats_state]
    exact h0

theorem start_task_stable (net : String → Bool) (showF : ℚ → String) (uuid : String)
    (events : List Event) (st : CBState)
    (h0 : st.start_task.lookup uuid = none)
    (h : ∀ e ∈ events, startsTaskUuid uuid e = false) :
    ((runEvents net showF events st).1).start_task.lookup uuid = none := by
  induction events generalizing st with
  | nil =>
    simp only [runEvents]
    exact h0
  | cons e es ih =>
    have he : startsTaskUuid uuid e = false := h e (List.mem_cons_self e es)
    have hes : ∀ x ∈ es, startsTaskUuid uuid x = false :=
      fun x hx => h x (List.mem_cons_of_mem e hx)
    have h1 := handleEvent_start_task_none net showF uuid e st h0 he
    simp only [runEvents]
    split
    · next st1 sent err heq =>
      have : (handleEvent net showF e st).1 = st1 := by rw [heq]
      rw [← this]
      exact h1
    · next st1 sent heq =>
      have hst1 : (handleEvent net showF e st).1 = st1 := by rw [heq]
      rw [hst1] at h1
      exact ih st1 h1 hes

/-- C4: a completion event for a task id with no recorded start raises: the
elapsed-time lookup of `_runtime` fails with a `KeyError` (the model's
`MissingStartError`) instead of producing a garbage elapsed value — both
directly, for any state in which the id is unrecorded, and for any event
sequence from the initial state containing no `task.start` or
`handlerTask.start` for that id. -/
theorem missing_start_raises :
    (∀ (st : CBState) (now : ℚ) (uuid : String),
        st.start_task.lookup uuid = none →
        runtimeOf st now (.taskResult uuid) = .error ("KeyError: " ++ uuid)) ∧
    (∀ (net : String → Bool) (showF : ℚ → String) (events : List Event)
        (uuid : String) (now : ℚ),
        (∀ e ∈ events, startsTaskUuid uuid e = false) →
        runtimeOf (runEvents net showF events initCB).1 now (.taskResult uuid) =
          .error ("KeyError: " ++ uuid)) := by
  refine ⟨runtimeOf_lookup_none, ?_⟩
  intro net showF events uuid now h
  exact runtimeOf_lookup_none _ now uuid (start_task_stable net showF uuid events initCB rfl h)

/-- Witness for C4: after a playbook start and a start for task `u1`, the
elapsed-time lookup for the never-started id `u2` raises. -/
theorem missing_start_raises_witness :
    runtimeOf (runEvents (fun _ => true) (fun _ => "")
        [Event.playbookStart "b" "f.yml" 0, Event.taskStart "t" "u1" 1] initCB).1
      7 (.taskResult "u2") = .error ("KeyError: " ++ "u2") :=
  missing_start_raises.2 (fun _ => true) (fun _ => "")
    [Event.playbookStart "b" "f.yml" 0, Event.taskStart "t" "u1" 1] "u2" 7 (by decide)

/-- Counterexample for C2: with the task context populated, a host result
carrying `check_mode = False`, and a network whose send fails, the
host-outcome handler ends with a raised exception (and no logging path
exists in the plugin): the dispatcher re-raises rather than swallowing the
transport failure, and the gauge send of the same event never happens. -/
theorem transport_failure_counterexample :
    (v2_runner_on (fun _ => false) (fun _ => "2.5") .ok "u1" "node1" (some false) 1
      { start_playbook := some 0, start_play := some 0, start_task := [("u1", 0)],
        statsd := { ansible_check_mode := true, ansible_basedir := "/plays",
                    ansible_playbook := "deploy", ansible_play := some "web",
                    ansible_task := some "install pkg" } }).2 =
      ([], some "TransportError") := by
  decide

/-- C2 amended: a transport-level send failure is not swallowed by the
plugin — `send_metric` has no exception handling, so the failure propagates:
at the send boundary a failing send raises and transmits nothing, and a
host-outcome event whose counter send fails ends with the exception raised
out of the handler, its gauge never sent. -/
theorem transport_failure_propagates :
    (∀ (net : String → Bool) (sd : StatsDState) (m : String),
        sd.ansible_check_mode = false → net m = false →
        send_metric net sd m = ([], some "TransportError")) ∧
    (∀ (net : String → Bool) (showF : ℚ → String) (kind : Outcome)
        (uuid host : String) (now t0 : ℚ) (st : CBState) (play task : String),
        st.start_task.lookup uuid = some t0 →
        st.statsd.ansible_play = some play →
        st.statsd.ansible_task = some task →
        (∀ m, net m = false) →
        (v2_runner_on net showF kind uuid host (some false) now st).2 =
          ([], some "TransportError")) := by
  constructor
  · intro net sd m hcm hnet
    simp [send_metric, hcm, hnet]
  · intro net showF kind uuid host now t0 st play task hlook hplay htask hnet
    simp only [v2_runner_on, Option.getD_some, runtimeOf, hlook, hplay, htask,
      send_metric, Bool.not_false, if_true, hnet]
    simp

/-- Witness for C2's amended theorem at a concrete state and failing
network. -/
theorem transport_failure_propagates_witness :
    (v2_runner_on (fun _ => false) (fun _ => "0") .failed "u7" "h" (some false) 3
      { start_playbook := none, start_play := none, start_task := [("u7", 1)],
        statsd := { ansible_check_mode := true, ansible_basedir := "b",
                    ansible_playbook := "p", ansible_play := some "pl",
                    ansible_task := some "tk" } }).2 =
      ([], some "TransportError") :=
  transport_failure_propagates.2 (fun _ => false) (fun _ => "0") .failed "u7" "h" 3 1
    _ "pl" "tk" (by decide) rfl rfl (fun _ => rfl)

/-- Counterexample for C1: on the example event stream the counter line the
code produces starts `ansible.counter./plays.` — `v2_playbook_on_start`
replaces only `.` (not `/`) in the basedir, so `/plays` is interpolated
unchanged — which differs from the claimed
`ansible.counter._plays.deploy.web.install pkg.node1.ok:1|c`. -/
theorem metric_example_counterexample :
    (runEvents (fun _ => true) (fun _ => "2.5") c1Events initCB).2.head? =
      some "ansible.counter./plays.deploy.web.install pkg.node1.ok:1|c" ∧
    "ansible.counter./plays.deploy.web.install pkg.node1.ok:1|c" ≠
      "ansible.counter._plays.deploy.web.install pkg.node1.ok:1|c" := by
  constructor
  · decide
  · decide

/-- C1 amended: on the example event stream (basedir `/plays`, playbook
`deploy.yml`, play `web`, task `install pkg`, host `node1`, outcome `ok`,
elapsed 2.5 s), for any transport that accepts the sends and with Python
rendering the float 2.5 as `2.5`, the code transmits exactly the counter
line `ansible.counter./plays.deploy.web.install pkg.node1.ok:1|c` followed
by the gauge line `ansible.gauge./plays.deploy.web.install pkg.node1.ok:2.5|g`
(the basedir keeps its `/`; only dots would be replaced by `_`). -/
theorem metric_example_lines (net : String → Bool) (showF : ℚ → String)
    (hnet : ∀ m, net m = true) (hshow : showF (5 / 2) = "2.5") :
    (runEvents net showF c1Events initCB).2 =
      ["ansible.counter./plays.deploy.web.install pkg.node1.ok:1|c",
       "ansible.gauge./plays.deploy.web.install pkg.node1.ok:2.5|g"] := by
  have hb : sanitizeBasedir "/plays" = "/plays" := by decide
  have hp : playbookSegment "deploy.yml" = "deploy" := by decide
  simp [c1Events, runEvents, handleEvent, v2_runner_on, v2_playbook_on_stats,
    hb, hp, runtimeOf, List.lookup, send_metric, hnet, hshow,
    outcomeStr, taskCounterLine, taskGaugeLine]

/-- Witness for C1's amended theorem: concrete network and float rendering. -/
theorem metric_example_lines_witness :
    ((fun (_ : String) => true) "x" = true) ∧
    ((fun (_ : ℚ) => "2.5") (5 / 2) = "2.5") ∧
    (runEvents (fun _ => true) (fun _ => "2.5") c1Events initCB).2 =
      ["ansible.counter./plays.deploy.web.install pkg.node1.ok:1|c",
       "ansible.gauge./plays.deploy.web.install pkg.node1.ok:2.5|g"] :=
  ⟨rfl, rfl, metric_example_lines (fun _ => true) (fun _ => "2.5") (fun _ => rfl) rfl⟩

theorem handleEvent_check_mode_true (net : String → Bool) (showF : ℚ → String)
    (e : Event) (st : CBState)
    (hcm : st.statsd.ansible_check_mode = true) (he : explicitFalseCM e = false) :
    (handleEvent net showF e st).2.1 = [] ∧
    ((handleEvent net showF e st).1).statsd.ansible_check_mode = true := by
  cases e with
  | playbookStart b f t => exact ⟨rfl, hcm⟩
  | playStart p t => exact ⟨rfl, hcm⟩
  | taskStart n u t => exact ⟨rfl, hcm⟩
  | handlerTaskStart n u t => exact ⟨rfl, hcm⟩
  | hostOutcome kind u host cm t =>
    have hget : cm.getD true = true := by
      cases cm with
      | none => rfl
      | some b =>
        cases b with
        | false => simp [explicitFalseCM] at he
        | true => rfl
    simp only [handleEvent, v2_runner_on, hget]
    split
    · exact ⟨rfl, rfl⟩
    · split
      · exact ⟨rfl, rfl⟩
      · exact ⟨rfl, rfl⟩
  | playbookStats attrs t =>
    simp only [handleEvent, v2_playbook_on_stats]
    split
    · exact ⟨rfl, hcm⟩
    · rw [sendAll_check_mode net st.statsd hcm]
      exact ⟨rfl, hcm⟩

theorem run_no_explicit_false_no_send (net : String → Bool) (showF : ℚ → String)
    (events : List Event) (st : CBState)
    (hcm : st.statsd.ansible_check_mode = true)
    (h : ∀ e ∈ events, explicitFalseCM e = false) :
    (runEvents net showF events st).2 = [] ∧
    ((runEvents net showF events st).1).statsd.ansible_check_mode = true := by
  induction events generalizing st with
  | nil => exact ⟨rfl, hcm⟩
  | cons e es ih =>
    have he := h e (List.mem_cons_self e es)
    have hes : ∀ x ∈ es, explicitFalseCM x = false :=
      fun x hx => h x (List.mem_cons_of_mem e hx)
    have h1 := handleEvent_check_mode_true net showF e st hcm he
    simp only [runEvents]
    split
    · next st1 sent err heq =>
      have hsent : (handleEvent net showF e st).2.1 = sent := by rw [heq]
      have hst1 : (handleEvent net showF e st).1 = st1 := by rw [heq]
      exact ⟨hsent ▸ h1.1, hst1 ▸ h1.2⟩
    · next st1 sent heq =>
      have hsent : (handleEvent net showF e st).2.1 = sent := by rw [heq]
      have hst1 : (handleEvent net showF e st).1 = st1 := by rw [heq]
      have h2 := ih st1 (hst1 ▸ h1.2) hes
      refine ⟨?_, h2.2⟩
      rw [← hsent]
      rw [h1.1, h2.1]
      rfl

/-- C9: the check-mode flag starts true at `StatsD` construction; a host
result lacking an explicit `check_mode` field resets it to true; hence a run
whose host outcomes never carry an explicit `check_mode = False` transmits
no metric at all — in particular its end-of-run stats metrics are
suppressed. -/
theorem check_mode_gating :
    initStatsD.ansible_check_mode = true ∧
    (∀ (net : String → Bool) (showF : ℚ → String) (kind : Outcome)
        (uuid host : String) (t : ℚ) (st : CBState),
        ((v2_runner_on net showF kind uuid host none t st).1).statsd.ansible_check_mode
          = true) ∧
    (∀ (net : String → Bool) (showF : ℚ → String) (events : List Event),
        (∀ e ∈ events, explicitFalseCM e = false) →
        (runEvents net showF events initCB).2 = []) := by
  refine ⟨rfl, ?_, ?_⟩
  · intro net showF kind uuid host t st
    simp only [v2_runner_on, Option.getD_none]
    split
    · rfl
    · split <;> rfl
  · intro net showF events h
    exact (run_no_explicit_false_no_send net showF events initCB rfl h).1

/-- Witness for C9: that run transmits nothing, stats included. -/
theorem check_mode_gating_witness :
    (runEvents (fun _ => true) (fun _ => "1") c9Events initCB).2 = [] :=
  check_mode_gating.2.2 (fun _ => true) (fun _ => "1") c9Events (by decide)

/-- C8: the one-shot entry point reports a structured failure including the
underlying cause if constructing the client or performing the single send
raises — and otherwise reports success having performed exactly one metric
send (the client calls it made contain exactly one send operation, namely
the counter increment or gauge set the parameters specify). -/
theorem one_shot_reports (p : OneShotParams) (eff : ClientOp → Except String Unit) :
    (∀ e, eff (clientCtor p) = .error e → moduleMain p eff = (failResult e, [])) ∧
    (∀ e, eff (clientCtor p) = .ok () → eff (clientSend p) = .error e →
        moduleMain p eff = (failResult e, [clientCtor p])) ∧
    (eff (clientCtor p) = .ok () → eff (clientSend p) = .ok () →
        (moduleMain p eff).1 = { failed := false, msg := none } ∧
        (moduleMain p eff).2.filter ClientOp.isSend = [clientSend p] ∧
        (clientSend p).isSend = true) := by
  have hctor : (clientCtor p).isSend = false := by
    cases hp : p.protocol <;> simp [clientCtor, hp, ClientOp.isSend]
  have hsend : (clientSend p).isSend = true := by
    cases hm : p.metric_type <;> simp [clientSend, hm, ClientOp.isSend]
  refine ⟨?_, ?_, ?_⟩
  · intro e h1
    simp [moduleMain, h1]
  · intro e h1 h2
    simp [moduleMain, h1, h2]
  · intro h1 h2
    refine ⟨?_, ?_, hsend⟩
    · simp [moduleMain, h1, h2]
    · simp [moduleMain, h1, h2, List.filter, hctor, hsend]

/-- Witness for C8: a concrete udp counter submission against a client whose
calls all succeed reports success with exactly the one send. -/
theorem one_shot_reports_witness :
    ((fun (_ : ClientOp) => (Except.ok () : Except String Unit)) (clientCtor
      { host := "localhost", port := 8125, protocol := .udp, timeout := 1,
        metric := "m", metric_type := .counter, metricPref := "", value := 1,
        delta := false }) = Except.ok ()) ∧
    (moduleMain
      { host := "localhost", port := 8125, protocol := .udp, timeout := 1,
        metric := "m", metric_type := .counter, metricPref := "", value := 1,
        delta := false } (fun _ => .ok ())).1 = { failed := false, msg := none } ∧
    (moduleMain
      { host := "localhost", port := 8125, protocol := .udp, timeout := 1,
        metric := "m", metric_type := .counter, metricPref := "", value := 1,
        delta := false } (fun _ => .ok ())).2.filter ClientOp.isSend =
      [clientSend
        { host := "localhost", port := 8125, protocol := .udp, timeout := 1,
          metric := "m", metric_type := .counter, metricPref := "", value := 1,
          delta := false }] :=
  ⟨rfl,
   ((one_shot_reports
      { host := "localhost", port := 8125, protocol := .udp, timeout := 1,
        metric := "m", metric_type := .counter, metricPref := "", value := 1,
        delta := false } (fun _ => .ok ())).2.2 rfl rfl).1,
   ((one_shot_reports
      { host := "localhost", port := 8125, protocol := .udp, timeout := 1,
        metric := "m", metric_type := .counter, metricPref := "", value := 1,
        delta := false } (fun _ => .ok ())).2.2 rfl rfl).2.1⟩
